import Mathlib

/-!
# Verification of the tribomagnetic memory demo simulation core

A shallow embedding of `tribomagnetic_memory_demo.py`: the per-domain
state machine (trigger, rotation toward target, retention countdown,
relaxation), the traveling SAW band, the grid tick of the animation
loop, and the digital-twin aggregate metrics.  Angles are modelled as
real numbers; NumPy's `arctan2(sin θ, cos θ)` renormalization is the
representative of `θ` in the interval `(-π, π]`, i.e.
`Real.Angle.toReal` of the coercion of `θ` into `Real.Angle`.
-/

set_option autoImplicit false

open Real

namespace Tribo

/-! ## Module constants (from the parameter block of the source) -/

/-- `FILM_WIDTH = 200e-9` (meters). -/
def FILM_WIDTH : ℝ := 200e-9

/-- `FILM_LENGTH = 1000e-9` (meters). -/
def FILM_LENGTH : ℝ := 1000e-9

/-- `DOMAIN_SIZE = 25e-9` (meters, target domain pitch). -/
def DOMAIN_SIZE : ℝ := 25e-9

/-- `NUM_DOMAINS_X = int(FILM_WIDTH / DOMAIN_SIZE)`; the division is exact,
giving `8`. -/
def NUM_DOMAINS_X : ℕ := 8

/-- `NUM_DOMAINS_Y = int(FILM_LENGTH / DOMAIN_SIZE)`; the division is exact,
giving `40`. -/
def NUM_DOMAINS_Y : ℕ := 40

/-- `INITIAL_MAGNETIZATION_ANGLE_DEG = 0` (degrees). -/
def INITIAL_MAGNETIZATION_ANGLE_DEG : ℝ := 0

/-- `MAX_ROTATION_STRAIN_DEG = 15` (degrees). -/
def MAX_ROTATION_STRAIN_DEG : ℝ := 15

/-- `TRIBO_ENHANCEMENT_FACTOR = 1.4` (40% enhancement). -/
def TRIBO_ENHANCEMENT_FACTOR : ℝ := 1.4

/-- `MAX_ROTATION_TRIBO_DEG = MAX_ROTATION_STRAIN_DEG * TRIBO_ENHANCEMENT_FACTOR`. -/
def MAX_ROTATION_TRIBO_DEG : ℝ := MAX_ROTATION_STRAIN_DEG * TRIBO_ENHANCEMENT_FACTOR

/-- `RETENTION_TIME_STRAIN_S = 2.0` (seconds). -/
def RETENTION_TIME_STRAIN_S : ℝ := 2.0

/-- `RETENTION_TIME_TRIBO_S = 6.0` (seconds). -/
def RETENTION_TIME_TRIBO_S : ℝ := 6.0

/-- `saw_visual_thickness = DOMAIN_SIZE`: the z-extent (`size.z`) of the SAW
band box, i.e. the full width of the excitation band. -/
def saw_visual_thickness : ℝ := DOMAIN_SIZE

/-- The spec's `bandWidth` is the band box's full z-extent
`saw_visual_thickness`. -/
def bandWidth : ℝ := saw_visual_thickness

/-- `saw_speed = FILM_LENGTH / 5.0` (SAW traverses the film in 5 seconds). -/
noncomputable def saw_speed : ℝ := FILM_LENGTH / 5

/-- `dt = 0.01`: the timestep the animation loop uses on every iteration. -/
def dt : ℝ := 0.01

/-! ## Angle utilities -/

/-- `np.radians d = d * π / 180`. -/
noncomputable def radians (d : ℝ) : ℝ := d * π / 180

/-- The source's renormalization idiom `np.arctan2(np.sin θ, np.cos θ)`:
the unique representative of `θ` modulo `2π` lying in `(-π, π]`,
which is `Real.Angle.toReal` of `θ` as an element of the circle. -/
noncomputable def normAngle (θ : ℝ) : ℝ := (θ : Real.Angle).toReal

/-! ## The per-domain state (the `domain_states[i]` dictionary) -/

/-- One magnetic domain's mutable per-cell state, together with the fixed
longitudinal coordinate `pos_z = (j + 0.5) * DOMAIN_SIZE` of its arrow
(`domain.pos.z`, never moved after creation). -/
structure Cell where
  pos_z : ℝ
  current_angle_rad : ℝ
  target_angle_rad : ℝ
  retention_timer : ℝ
  original_angle_rad : ℝ
  is_flipped : Bool
  max_rotation_rad : ℝ

/-! ## The SAW-over-domain overlap test (lines 247–248) -/

/-- `domain.pos.z - DOMAIN_SIZE/2 < saw_visual.pos.z + saw_visual.size.z/2
and domain.pos.z + DOMAIN_SIZE/2 > saw_visual.pos.z - saw_visual.size.z/2`:
the band box (centered at `sawZ`) intersects the cell's extent. -/
def sawOverDomain (sawZ cellZ : ℝ) : Prop :=
  cellZ - DOMAIN_SIZE / 2 < sawZ + saw_visual_thickness / 2 ∧
  cellZ + DOMAIN_SIZE / 2 > sawZ - saw_visual_thickness / 2

/-- The band's leading (front) edge: the code stores the band's center in
`saw_visual_y_pos`, so the spec's `leadingEdgePosition` is the center plus
half the band thickness. -/
noncomputable def leadingEdge (y : ℝ) : ℝ := y + saw_visual_thickness / 2

/-- Follows the spec's words for the claimed overlap contract
(`overlaps(cellPosition)` true iff the cell's longitudinal coordinate lies
within `[leadingEdgePosition - bandWidth/2, leadingEdgePosition + bandWidth/2]`),
for comparison against the source's `sawOverDomain`. -/
def specOverlaps (lep z : ℝ) : Prop :=
  lep - bandWidth / 2 ≤ z ∧ z ≤ lep + bandWidth / 2

/-! ## The trigger block (lines 250–269) -/

/-- The body of `if not state['is_flipped']:` inside the SAW-over-domain
branch: mark the cell flipped, pick the rotation magnitude by the tribo
flag, rotate negatively when `cos(original) >= 0` and positively otherwise,
renormalize the target, record it as `max_rotation_rad`, and start the
retention countdown. -/
noncomputable def triggerUpdate (tribo : Bool) (c : Cell) : Cell :=
  let maxRotDeg : ℝ := if tribo then MAX_ROTATION_TRIBO_DEG else MAX_ROTATION_STRAIN_DEG
  let tgt0 : ℝ :=
    if 0 ≤ Real.cos c.original_angle_rad then c.original_angle_rad - radians maxRotDeg
    else c.original_angle_rad + radians maxRotDeg
  let tgt : ℝ := normAngle tgt0
  { c with
    is_flipped := true
    target_angle_rad := tgt
    max_rotation_rad := tgt
    retention_timer := if tribo then RETENTION_TIME_TRIBO_S else RETENTION_TIME_STRAIN_S }

noncomputable instance instDecidableSawOverDomain (sawZ cellZ : ℝ) :
    Decidable (sawOverDomain sawZ cellZ) := by
  unfold sawOverDomain; infer_instance

/-- One cell's share of the trigger loop: apply `triggerUpdate` when the band
overlaps the cell and it is not already flipped, else leave it alone. -/
noncomputable def trigStep (tribo : Bool) (visZ : ℝ) (c : Cell) : Cell :=
  if sawOverDomain visZ c.pos_z ∧ c.is_flipped = false then triggerUpdate tribo c else c

/-! ## The rotation / retention block (lines 277–302) -/

/-- Lines 277–283: while flipped and farther than 0.5° from the target,
move `current_angle_rad` by 20% of the renormalized residual, then
renormalize. -/
noncomputable def stepB1 (c : Cell) : Cell :=
  if c.is_flipped = true ∧
      |c.current_angle_rad - c.target_angle_rad| > radians 0.5 then
    let angle_diff := normAngle (c.target_angle_rad - c.current_angle_rad)
    { c with current_angle_rad := normAngle (c.current_angle_rad + angle_diff * 0.2) }
  else c

/-- Lines 285–302: while flipped with positive retention, count the timer
down (flooring at zero and retargeting the original angle when it runs
out); otherwise, while flipped with expired retention, either take the 5%
relaxation step toward the original angle or — once within 0.5° — snap to
the original angle, clear the flipped flag and the recorded max rotation. -/
noncomputable def stepB2 (d : ℝ) (c : Cell) : Cell :=
  if c.is_flipped = true ∧ c.retention_timer > 0 then
    let r := c.retention_timer - d
    if r ≤ 0 then { c with retention_timer := 0, target_angle_rad := c.original_angle_rad }
    else { c with retention_timer := r }
  else if c.is_flipped = true ∧ c.retention_timer ≤ 0 then
    if |c.current_angle_rad - c.original_angle_rad| > radians 0.5 then
      let angle_diff := normAngle (c.original_angle_rad - c.current_angle_rad)
      { c with current_angle_rad := normAngle (c.current_angle_rad + angle_diff * 0.05) }
    else
      { c with
        current_angle_rad := c.original_angle_rad
        is_flipped := false
        max_rotation_rad := 0 }
  else c

/-- One cell's share of the rotation/retention loop of a single animation
iteration: the 20%-step block followed by the retention/relaxation block. -/
noncomputable def phaseB (d : ℝ) (c : Cell) : Cell := stepB2 d (stepB1 c)

/-! ## The whole-simulation state and one animation-loop iteration -/

/-- The state mutated by the animation loop: the two UI toggles, the SAW
scalar `saw_visual_y_pos`, the band box position `saw_visual.pos.z`
(which lags the scalar across the wrap), and the list of domain cells. -/
structure SimState where
  saw_on : Bool
  tribo_on : Bool
  saw_visual_y_pos : ℝ
  saw_visual_pos_z : ℝ
  cells : List Cell

/-- Lines 230–239 restricted to the scalar `saw_visual_y_pos`: advance by
`saw_speed * dt` and wrap back to `-saw_visual_thickness/2` once past
`FILM_LENGTH + saw_visual_thickness/2`. -/
noncomputable def sawAdvance (d y : ℝ) : ℝ :=
  let y1 := y + saw_speed * d
  if y1 > FILM_LENGTH + saw_visual_thickness / 2 then -saw_visual_thickness / 2 else y1

/-- One iteration of the `while True` animation loop (rendering aside):
when the SAW is on, advance the band (the box position `saw_visual.pos.z`
is set to the advanced scalar *before* the wrap test, and the wrap touches
only the scalar), run the trigger loop against the box position, then run
the rotation/retention loop; when the SAW is off, only the
rotation/retention loop runs. -/
noncomputable def tick (d : ℝ) (s : SimState) : SimState :=
  if s.saw_on then
    let y1 := s.saw_visual_y_pos + saw_speed * d
    let y2 := if y1 > FILM_LENGTH + saw_visual_thickness / 2 then
        -saw_visual_thickness / 2 else y1
    { s with
      saw_visual_y_pos := y2
      saw_visual_pos_z := y1
      cells := (s.cells.map (trigStep s.tribo_on y1)).map (phaseB d) }
  else
    { s with cells := s.cells.map (phaseB d) }

/-- `toggle_saw`: flip `saw_on`; when turning on, reset the band box
position `saw_visual.pos.z` to the film start (the scalar
`saw_visual_y_pos` is *not* reset). -/
noncomputable def toggle_saw (s : SimState) : SimState :=
  if s.saw_on then { s with saw_on := false }
  else { s with saw_on := true, saw_visual_pos_z := -saw_visual_thickness / 2 }

/-- `toggle_tribo`: flip `tribo_on`; everything else it touches is
presentation. -/
def toggle_tribo (s : SimState) : SimState :=
  { s with tribo_on := !s.tribo_on }

/-! ## Grid creation (lines 90–115) and reachability -/

/-- The cell created for lattice position `(i, j)` with perturbation `p`
(drawn from `random.uniform(-5, 5)` in the source): rest orientation
`radians (INITIAL_MAGNETIZATION_ANGLE_DEG + p)`, not flipped, timers zero,
arrow at `pos.z = (j + 0.5) * DOMAIN_SIZE`. -/
noncomputable def initCell (i j : ℕ) (p : ℝ) : Cell :=
  let a := radians (INITIAL_MAGNETIZATION_ANGLE_DEG + p)
  { pos_z := ((j : ℝ) + 0.5) * DOMAIN_SIZE
    current_angle_rad := a
    target_angle_rad := a
    retention_timer := 0
    original_angle_rad := a
    is_flipped := false
    max_rotation_rad := 0 }

/-- The initial grid: the double loop `for i in range(NUM_DOMAINS_X): for j
in range(NUM_DOMAINS_Y)` with perturbations `ps i j`. -/
noncomputable def initCells (ps : ℕ → ℕ → ℝ) : List Cell :=
  (List.range NUM_DOMAINS_X).flatMap fun i =>
    (List.range NUM_DOMAINS_Y).map fun j => initCell i j (ps i j)

/-- The program state right after setup: both toggles off, the SAW scalar
and the band box at `-saw_visual_thickness/2`. -/
noncomputable def initState (ps : ℕ → ℕ → ℝ) : SimState :=
  { saw_on := false
    tribo_on := false
    saw_visual_y_pos := -saw_visual_thickness / 2
    saw_visual_pos_z := -saw_visual_thickness / 2
    cells := initCells ps }

/-- The states the program can be in: some initial grid (perturbations
bounded by the `random.uniform(-5,5)` range) followed by any interleaving
of animation-loop iterations (at the program's fixed `dt`) and the two UI
toggles. -/
inductive Reach : SimState → Prop
  | init (ps : ℕ → ℕ → ℝ) (hps : ∀ i j, |ps i j| ≤ 5) : Reach (initState ps)
  | tick {s : SimState} : Reach s → Reach (tick dt s)
  | tsaw {s : SimState} : Reach s → Reach (toggle_saw s)
  | ttribo {s : SimState} : Reach s → Reach (toggle_tribo s)

/-! ## The digital-twin metrics (`update_digital_twin_text`, lines 167–194) -/

/-- The accumulation loop of `update_digital_twin_text`: running sum of
per-cell completion percentages and the count of active domains.  A cell
contributes when it is flipped and its recorded max rotation is more than
1° away from its original angle. -/
noncomputable def rotAccum : List Cell → ℝ × ℕ
  | [] => (0, 0)
  | c :: rest =>
    let p := rotAccum rest
    if c.is_flipped = true ∧ |c.max_rotation_rad - c.original_angle_rad| > radians 1 then
      (p.1 + |c.current_angle_rad - c.original_angle_rad| /
          |c.max_rotation_rad - c.original_angle_rad| * 100, p.2 + 1)
    else p

/-- `avg_rotation_perc`: the accumulated percentage divided by the active
count when any domain is active, else zero. -/
noncomputable def avg_rotation_perc (cells : List Cell) : ℝ :=
  let p := rotAccum cells
  if 0 < p.2 then p.1 / (p.2 : ℝ) else 0

/-- `base_nT = 10`. -/
def base_nT : ℝ := 10

/-- `max_nT_strain = 30`. -/
def max_nT_strain : ℝ := 30

/-- `max_nT_tribo = 50`. -/
def max_nT_tribo : ℝ := 50

/-- `simulated_delta_B_nT`: linear interpolation from the baseline toward
the ceiling selected by the tribo flag, scaled by the average completion
percentage, then clamped to `[base_nT, ceiling]`. -/
noncomputable def simulated_delta_B_nT (tribo : Bool) (cells : List Cell) : ℝ :=
  let current_max_nT := if tribo then max_nT_tribo else max_nT_strain
  let raw := base_nT + (current_max_nT - base_nT) * (avg_rotation_perc cells / 100)
  max base_nT (min raw current_max_nT)

/-! ## Per-cell view of a tick, for the temporal no-retrigger property -/

/-- One animation iteration as seen by a single cell, with the overlap
outcome abstracted into the boolean `ov` (`saw_on` and the band over this
cell): the trigger guard followed by the rotation/retention phase. -/
noncomputable def cellTick (ov tribo : Bool) (d : ℝ) (c : Cell) : Cell :=
  phaseB d (if ov = true ∧ c.is_flipped = false then triggerUpdate tribo c else c)

/-- A cell run through a sequence of per-tick inputs
`(overlap, tribo, dt)`. -/
noncomputable def cellSeq (c : Cell) : List (Bool × Bool × ℝ) → Cell
  | [] => c
  | (ov, tr, d) :: rest => cellSeq (cellTick ov tr d c) rest

/-- The `AtRest → Holding` trigger fires on this tick for this cell: the
band is over it and it is not flipped. -/
def trigFires (ov : Bool) (c : Cell) : Prop := ov = true ∧ c.is_flipped = false

/-- The `Relaxing → AtRest` transition fires on this tick for this cell:
it is flipped with expired retention and, after the 20%-step block, its
current angle is within 0.5° of the original. -/
noncomputable def relaxCompletes (c : Cell) : Prop :=
  c.is_flipped = true ∧ c.retention_timer ≤ 0 ∧
    |(stepB1 c).current_angle_rad - c.original_angle_rad| ≤ radians 0.5

/-- No `Relaxing → AtRest` transition of this cell anywhere along the
input sequence. -/
noncomputable def NoRelax (c : Cell) : List (Bool × Bool × ℝ) → Prop
  | [] => True
  | (ov, tr, d) :: rest => ¬relaxCompletes c ∧ NoRelax (cellTick ov tr d c) rest

/-- No `AtRest → Holding` trigger of this cell anywhere along the input
sequence. -/
noncomputable def NoTrig (c : Cell) : List (Bool × Bool × ℝ) → Prop
  | [] => True
  | (ov, tr, d) :: rest => ¬trigFires ov c ∧ NoTrig (cellTick ov tr d c) rest

/-- A concrete relaxing-state cell: flipped, retention expired (so the
`Holding → Relaxing` retargeting has already set the target to the original
angle), current angle `0.1` rad away from its rest orientation `0`. -/
def relaxingCellExample : Cell :=
  { pos_z := 0
    current_angle_rad := 0.1
    target_angle_rad := 0
    retention_timer := 0
    original_angle_rad := 0
    is_flipped := true
    max_rotation_rad := 0 }

/-- A concrete freshly-holding cell: flipped with 5 s of retention left. -/
def holdingCellExample : Cell :=
  { pos_z := 0
    current_angle_rad := 0
    target_angle_rad := 0
    retention_timer := 5
    original_angle_rad := 0
    is_flipped := true
    max_rotation_rad := 0 }

/-- A concrete whole-simulation state with the SAW running. -/
def runningStateExample : SimState :=
  { saw_on := true
    tribo_on := false
    saw_visual_y_pos := 0
    saw_visual_pos_z := 0
    cells := [] }

/-- A concrete whole-simulation state with the SAW off. -/
def idleStateExample : SimState :=
  { saw_on := false
    tribo_on := false
    saw_visual_y_pos := 0
    saw_visual_pos_z := 0
    cells := [holdingCellExample] }

/-- All three angle fields of a cell lie in the normalized interval
`(-π, π]`. -/
def anglesNormalized (c : Cell) : Prop :=
  c.original_angle_rad ∈ Set.Ioc (-π) π ∧
  c.current_angle_rad ∈ Set.Ioc (-π) π ∧
  c.target_angle_rad ∈ Set.Ioc (-π) π

/-! ## Basic angle lemmas -/

theorem normAngle_eq_self {θ : ℝ} (h1 : -π < θ) (h2 : θ ≤ π) : normAngle θ = θ :=
  Real.Angle.toReal_coe_eq_self_iff.mpr ⟨h1, h2⟩

theorem normAngle_mem_Ioc (θ : ℝ) : normAngle θ ∈ Set.Ioc (-π) π :=
  Real.Angle.toReal_mem_Ioc _

theorem radians_eq (d : ℝ) : radians d = d * π / 180 := rfl

/-! ## Field lemmas for the per-cell step functions -/

theorem stepB1_is_flipped (c : Cell) : (stepB1 c).is_flipped = c.is_flipped := by
  unfold stepB1; split <;> rfl

theorem stepB1_retention (c : Cell) : (stepB1 c).retention_timer = c.retention_timer := by
  unfold stepB1; split <;> rfl

theorem stepB1_original (c : Cell) :
    (stepB1 c).original_angle_rad = c.original_angle_rad := by
  unfold stepB1; split <;> rfl

theorem stepB1_target (c : Cell) : (stepB1 c).target_angle_rad = c.target_angle_rad := by
  unfold stepB1; split <;> rfl

theorem stepB1_max_rotation (c : Cell) :
    (stepB1 c).max_rotation_rad = c.max_rotation_rad := by
  unfold stepB1; split <;> rfl

theorem stepB1_pos_z (c : Cell) : (stepB1 c).pos_z = c.pos_z := by
  unfold stepB1; split <;> rfl

theorem stepB1_current_far (c : Cell) (hf : c.is_flipped = true)
    (hfar : |c.current_angle_rad - c.target_angle_rad| > radians 0.5) :
    (stepB1 c).current_angle_rad =
      normAngle (c.current_angle_rad +
        normAngle (c.target_angle_rad - c.current_angle_rad) * 0.2) := by
  unfold stepB1; rw [if_pos ⟨hf, hfar⟩]

theorem stepB1_near (c : Cell)
    (h : ¬(c.is_flipped = true ∧ |c.current_angle_rad - c.target_angle_rad| > radians 0.5)) :
    stepB1 c = c := by
  unfold stepB1; rw [if_neg h]

theorem stepB2_retention_pos (d : ℝ) (c : Cell) (hf : c.is_flipped = true)
    (hr : c.retention_timer > 0) (hrd : ¬c.retention_timer - d ≤ 0) :
    stepB2 d c = { c with retention_timer := c.retention_timer - d } := by
  unfold stepB2; rw [if_pos ⟨hf, hr⟩, if_neg hrd]

theorem stepB2_retention_runout (d : ℝ) (c : Cell) (hf : c.is_flipped = true)
    (hr : c.retention_timer > 0) (hrd : c.retention_timer - d ≤ 0) :
    stepB2 d c =
      { c with retention_timer := 0, target_angle_rad := c.original_angle_rad } := by
  unfold stepB2; rw [if_pos ⟨hf, hr⟩, if_pos hrd]

theorem stepB2_relax_far (d : ℝ) (c : Cell) (hf : c.is_flipped = true)
    (hr : c.retention_timer ≤ 0)
    (hfar : |c.current_angle_rad - c.original_angle_rad| > radians 0.5) :
    stepB2 d c =
      { c with
        current_angle_rad := normAngle (c.current_angle_rad +
          normAngle (c.original_angle_rad - c.current_angle_rad) * 0.05) } := by
  unfold stepB2
  rw [if_neg fun h => absurd h.2 (not_lt.mpr hr), if_pos ⟨hf, hr⟩, if_pos hfar]

theorem stepB2_relax_far_current (d : ℝ) (c : Cell) (hf : c.is_flipped = true)
    (hr : c.retention_timer ≤ 0)
    (hfar : |c.current_angle_rad - c.original_angle_rad| > radians 0.5) :
    (stepB2 d c).current_angle_rad =
      normAngle (c.current_angle_rad +
        normAngle (c.original_angle_rad - c.current_angle_rad) * 0.05) := by
  unfold stepB2
  rw [if_neg fun h => absurd h.2 (not_lt.mpr hr), if_pos ⟨hf, hr⟩, if_pos hfar]

theorem stepB2_relax_snap (d : ℝ) (c : Cell) (hf : c.is_flipped = true)
    (hr : c.retention_timer ≤ 0)
    (hnear : ¬|c.current_angle_rad - c.original_angle_rad| > radians 0.5) :
    stepB2 d c =
      { c with
        current_angle_rad := c.original_angle_rad
        is_flipped := false
        max_rotation_rad := 0 } := by
  unfold stepB2
  rw [if_neg fun h => absurd h.2 (not_lt.mpr hr), if_pos ⟨hf, hr⟩, if_neg hnear]

theorem stepB2_not_flipped (d : ℝ) (c : Cell) (hf : c.is_flipped = false) :
    stepB2 d c = c := by
  unfold stepB2
  rw [if_neg fun h => by simp [hf] at h, if_neg fun h => by simp [hf] at h]

theorem stepB1_not_flipped (c : Cell) (hf : c.is_flipped = false) : stepB1 c = c := by
  unfold stepB1; rw [if_neg fun h => by simp [hf] at h]

/-- The net effect of the rotation/retention block on a relaxing cell that
is still farther than `0.5°` from rest: because the 20%-step block's guard
only checks `is_flipped` and the target already equals the original angle,
it fires first, and the 5% relaxation step then applies to the remainder —
the residual shrinks by the factor `0.76` in one iteration. -/
theorem relax_tick_formula (d : ℝ) (c : Cell)
    (hf : c.is_flipped = true) (hret : c.retention_timer ≤ 0)
    (htgt : c.target_angle_rad = c.original_angle_rad)
    (hc1 : -π < c.current_angle_rad) (hc2 : c.current_angle_rad ≤ π)
    (ho1 : -π < c.original_angle_rad) (ho2 : c.original_angle_rad ≤ π)
    (hdist : |c.original_angle_rad - c.current_angle_rad| < π)
    (heps : radians 0.5 < 0.8 * |c.original_angle_rad - c.current_angle_rad|) :
    (phaseB d c).current_angle_rad =
      c.current_angle_rad + 0.24 * (c.original_angle_rad - c.current_angle_rad) := by
  obtain ⟨hrl, hrr⟩ := abs_lt.mp hdist
  have habsnn : (0 : ℝ) ≤ |c.original_angle_rad - c.current_angle_rad| := abs_nonneg _
  have habs : radians 0.5 < |c.original_angle_rad - c.current_angle_rad| := by linarith
  have hcond1 : |c.current_angle_rad - c.target_angle_rad| > radians 0.5 := by
    rw [htgt, abs_sub_comm]; exact habs
  have hcur1 : (stepB1 c).current_angle_rad =
      c.current_angle_rad + (c.original_angle_rad - c.current_angle_rad) * 0.2 := by
    rw [stepB1_current_far c hf hcond1, htgt,
      normAngle_eq_self hrl (le_of_lt hrr)]
    exact normAngle_eq_self (by linarith) (by linarith)
  have hxf : (stepB1 c).is_flipped = true := by rw [stepB1_is_flipped]; exact hf
  have hxr : (stepB1 c).retention_timer ≤ 0 := by rw [stepB1_retention]; exact hret
  have hxo : (stepB1 c).original_angle_rad = c.original_angle_rad := stepB1_original c
  have habs08 : |0.8 * (c.original_angle_rad - c.current_angle_rad)| =
      0.8 * |c.original_angle_rad - c.current_angle_rad| := by
    rw [abs_mul]; norm_num
  have hxfar : |(stepB1 c).current_angle_rad - (stepB1 c).original_angle_rad| >
      radians 0.5 := by
    rw [hcur1, hxo, show c.current_angle_rad +
        (c.original_angle_rad - c.current_angle_rad) * 0.2 - c.original_angle_rad =
        -(0.8 * (c.original_angle_rad - c.current_angle_rad)) by ring,
      abs_neg, habs08]
    exact heps
  have hinner : normAngle (0.8 * (c.original_angle_rad - c.current_angle_rad)) =
      0.8 * (c.original_angle_rad - c.current_angle_rad) :=
    normAngle_eq_self (by linarith) (by linarith)
  show (stepB2 d (stepB1 c)).current_angle_rad = _
  rw [stepB2_relax_far_current d (stepB1 c) hxf hxr hxfar, hcur1, hxo,
    show c.original_angle_rad - (c.current_angle_rad +
        (c.original_angle_rad - c.current_angle_rad) * 0.2) =
      0.8 * (c.original_angle_rad - c.current_angle_rad) by ring,
    hinner,
    show c.current_angle_rad + (c.original_angle_rad - c.current_angle_rad) * 0.2 +
        0.8 * (c.original_angle_rad - c.current_angle_rad) * 0.05 =
      c.current_angle_rad + 0.24 * (c.original_angle_rad - c.current_angle_rad) by ring]
  exact normAngle_eq_self (by linarith) (by linarith)

/-! ## Claim C1: the per-tick step of a relaxing cell -/

/-- C1 (amended): for a cell in the Relaxing state (flipped, retention
expired, target already retargeted to the original angle) whose current
angle is farther than the amended threshold from the original (so that
both angular steps fire), one animation iteration moves the current angle
toward the original by 24% — not 5% — of the shortest-path residual: the
20%-of-residual Holding-branch step fires too, because its guard checks
only `is_flipped` and the relaxing cell's target equals its original
angle, and the 5% relaxation step then applies to the remaining 80%.  The
net per-tick approach is therefore strictly *faster* than the Holding
state's 20%, not slower. -/
theorem C1_relaxing_tick (d : ℝ) (c : Cell)
    (hf : c.is_flipped = true) (hret : c.retention_timer ≤ 0)
    (htgt : c.target_angle_rad = c.original_angle_rad)
    (hc1 : -π < c.current_angle_rad) (hc2 : c.current_angle_rad ≤ π)
    (ho1 : -π < c.original_angle_rad) (ho2 : c.original_angle_rad ≤ π)
    (hdist : |c.original_angle_rad - c.current_angle_rad| < π)
    (heps : radians 0.5 < 0.8 * |c.original_angle_rad - c.current_angle_rad|) :
    (phaseB d c).current_angle_rad =
      c.current_angle_rad + 0.24 * (c.original_angle_rad - c.current_angle_rad) ∧
    c.original_angle_rad - (phaseB d c).current_angle_rad =
      0.76 * (c.original_angle_rad - c.current_angle_rad) := by
  have h := relax_tick_formula d c hf hret htgt hc1 hc2 ho1 ho2 hdist heps
  exact ⟨h, by rw [h]; ring⟩

/-- C1 witness: the amended per-tick formula evaluated on a concrete
relaxing cell 0.1 rad away from rest. -/
theorem C1_relaxing_tick_witness :
    (phaseB dt relaxingCellExample).current_angle_rad =
      relaxingCellExample.current_angle_rad +
        0.24 * (relaxingCellExample.original_angle_rad -
          relaxingCellExample.current_angle_rad) ∧
    relaxingCellExample.original_angle_rad -
        (phaseB dt relaxingCellExample).current_angle_rad =
      0.76 * (relaxingCellExample.original_angle_rad -
        relaxingCellExample.current_angle_rad) := by
  have habs : |relaxingCellExample.original_angle_rad -
      relaxingCellExample.current_angle_rad| = 0.1 := by
    simp only [relaxingCellExample]
    rw [show (0 : ℝ) - 0.1 = -(0.1) by norm_num, abs_neg,
      abs_of_nonneg (by norm_num : (0 : ℝ) ≤ 0.1)]
  exact C1_relaxing_tick dt relaxingCellExample rfl (le_refl 0) rfl
    (by simp only [relaxingCellExample]; linarith [Real.pi_gt_three])
    (by simp only [relaxingCellExample]; linarith [Real.pi_gt_three])
    (by simp only [relaxingCellExample]; linarith [Real.pi_gt_three])
    (by simp only [relaxingCellExample]; linarith [Real.pi_gt_three])
    (by rw [habs]; linarith [Real.pi_gt_three])
    (by rw [habs, radians_eq]; linarith [Real.pi_lt_d2])

/-- C1 counterexample: on the same concrete relaxing cell, one animation
iteration does *not* move the current angle by exactly 5% of the
shortest-path residual (it lands at `0.076`, not `0.095`). -/
theorem C1_counterexample :
    ¬((phaseB dt relaxingCellExample).current_angle_rad =
      relaxingCellExample.current_angle_rad +
        normAngle (relaxingCellExample.original_angle_rad -
          relaxingCellExample.current_angle_rad) * 0.05) := by
  have habs : |relaxingCellExample.original_angle_rad -
      relaxingCellExample.current_angle_rad| = 0.1 := by
    simp only [relaxingCellExample]
    rw [show (0 : ℝ) - 0.1 = -(0.1) by norm_num, abs_neg,
      abs_of_nonneg (by norm_num : (0 : ℝ) ≤ 0.1)]
  have h := relax_tick_formula dt relaxingCellExample rfl (le_refl 0) rfl
    (by simp only [relaxingCellExample]; linarith [Real.pi_gt_three])
    (by simp only [relaxingCellExample]; linarith [Real.pi_gt_three])
    (by simp only [relaxingCellExample]; linarith [Real.pi_gt_three])
    (by simp only [relaxingCellExample]; linarith [Real.pi_gt_three])
    (by rw [habs]; linarith [Real.pi_gt_three])
    (by rw [habs, radians_eq]; linarith [Real.pi_lt_d2])
  have hn : normAngle (relaxingCellExample.original_angle_rad -
      relaxingCellExample.current_angle_rad) =
      relaxingCellExample.original_angle_rad -
        relaxingCellExample.current_angle_rad := by
    simp only [relaxingCellExample]
    exact normAngle_eq_self (by linarith [Real.pi_gt_three])
      (by linarith [Real.pi_gt_three])
  intro heq
  rw [h, hn] at heq
  simp only [relaxingCellExample] at heq
  norm_num at heq

/-! ## Claim C3: the SAW-over-domain overlap test -/

/-- C3 counterexample: at band center `57.5e-9` (so the claimed
`leadingEdgePosition` is `70e-9`) and cell coordinate `37.5e-9`, the
source's overlap test is true while the claimed closed interval
`[leadingEdgePosition - bandWidth/2, leadingEdgePosition + bandWidth/2]`
does not contain the cell's coordinate. -/
theorem C3_counterexample :
    sawOverDomain 57.5e-9 37.5e-9 ∧ ¬specOverlaps (leadingEdge 57.5e-9) 37.5e-9 := by
  unfold sawOverDomain specOverlaps leadingEdge bandWidth saw_visual_thickness DOMAIN_SIZE
  norm_num

/-- C3 (amended): the overlap test used to trigger excitation returns true
iff the cell's longitudinal coordinate lies strictly within the *open*
interval `(leadingEdgePosition - 3*bandWidth/2, leadingEdgePosition +
bandWidth/2)` — equivalently, strictly within one full `bandWidth` of the
band's center on either side, because the test also widens the band by the
cell's half-extent `DOMAIN_SIZE/2 = bandWidth/2` and uses strict
inequalities. -/
theorem C3_overlap_characterization (c z : ℝ) :
    sawOverDomain c z ↔
      leadingEdge c - 3 * bandWidth / 2 < z ∧ z < leadingEdge c + bandWidth / 2 := by
  unfold sawOverDomain leadingEdge bandWidth saw_visual_thickness DOMAIN_SIZE
  constructor <;> rintro ⟨h1, h2⟩ <;> exact ⟨by linarith, by linarith⟩

/-! ## Claim C4: the `AtRest → Holding` entry assignments -/

/-- C4: on an `AtRest → Holding` trigger, the target is the original angle
rotated by the plain magnitude (15°) or the tribo-enhanced magnitude
(21° = 1.4 × 15°), negatively exactly when `cos(originalAngle) ≥ 0`; the
target is normalized into `(-π, π]`; `max_rotation_rad` records it; and the
retention countdown starts at 2.0 s (plain) or 6.0 s (enhanced), the
enhanced duration being strictly greater. -/
theorem C4_trigger_entry (tribo : Bool) (c : Cell) :
    (triggerUpdate tribo c).target_angle_rad =
      normAngle (if 0 ≤ Real.cos c.original_angle_rad then
          c.original_angle_rad -
            radians (if tribo then MAX_ROTATION_TRIBO_DEG else MAX_ROTATION_STRAIN_DEG)
        else
          c.original_angle_rad +
            radians (if tribo then MAX_ROTATION_TRIBO_DEG else MAX_ROTATION_STRAIN_DEG)) ∧
    (triggerUpdate tribo c).target_angle_rad ∈ Set.Ioc (-π) π ∧
    (triggerUpdate tribo c).max_rotation_rad = (triggerUpdate tribo c).target_angle_rad ∧
    (triggerUpdate tribo c).retention_timer =
      (if tribo then RETENTION_TIME_TRIBO_S else RETENTION_TIME_STRAIN_S) ∧
    (triggerUpdate tribo c).is_flipped = true ∧
    MAX_ROTATION_STRAIN_DEG = 15 ∧
    MAX_ROTATION_TRIBO_DEG = 1.4 * MAX_ROTATION_STRAIN_DEG ∧
    MAX_ROTATION_TRIBO_DEG = 21 ∧
    RETENTION_TIME_STRAIN_S = 2 ∧ RETENTION_TIME_TRIBO_S = 6 ∧
    RETENTION_TIME_STRAIN_S < RETENTION_TIME_TRIBO_S := by
  refine ⟨rfl, normAngle_mem_Ioc _, rfl, rfl, rfl, rfl, ?_, ?_, ?_, ?_, ?_⟩ <;>
    norm_num [MAX_ROTATION_TRIBO_DEG, MAX_ROTATION_STRAIN_DEG, TRIBO_ENHANCEMENT_FACTOR,
      RETENTION_TIME_STRAIN_S, RETENTION_TIME_TRIBO_S]

/-! ## Claim C6: wavefront wrap -/

/-- C6: while excitation is on, the SAW scalar wraps exactly when the
band's leading edge exceeds the film length plus the full band width, and
it wraps to the position whose leading edge is `0`, the start of the film;
while excitation is off, the tick leaves the scalar untouched, so it never
wraps. -/
theorem C6_wavefront_wrap :
    (∀ d y, sawAdvance d y =
      if leadingEdge (y + saw_speed * d) > FILM_LENGTH + bandWidth then
        -bandWidth / 2
      else y + saw_speed * d) ∧
    leadingEdge (-bandWidth / 2) = 0 ∧
    (∀ d s, (tick d s).saw_visual_y_pos =
      if s.saw_on then sawAdvance d s.saw_visual_y_pos else s.saw_visual_y_pos) := by
  refine ⟨fun d y => ?_, by
    unfold leadingEdge bandWidth saw_visual_thickness DOMAIN_SIZE; norm_num,
    fun d s => ?_⟩
  · unfold sawAdvance leadingEdge bandWidth
    refine if_congr ?_ rfl rfl
    unfold saw_visual_thickness DOMAIN_SIZE
    constructor <;> intro h <;> linarith
  · cases hs : s.saw_on <;> simp [tick, sawAdvance, hs]

/-! ## Tick bookkeeping lemmas -/

theorem tick_saw_on (d : ℝ) (s : SimState) : (tick d s).saw_on = s.saw_on := by
  cases hs : s.saw_on <;> simp [tick, hs]

theorem tick_tribo_on (d : ℝ) (s : SimState) : (tick d s).tribo_on = s.tribo_on := by
  cases hs : s.saw_on <;> simp [tick, hs]

theorem tick_cells_off (d : ℝ) (s : SimState) (h : s.saw_on = false) :
    (tick d s).cells = s.cells.map (phaseB d) := by
  simp [tick, h]

theorem iterate_tick_cells_off (d : ℝ) (n : ℕ) (s : SimState) (h : s.saw_on = false) :
    ((tick d)^[n] s).cells = s.cells.map ((phaseB d)^[n]) := by
  induction n generalizing s with
  | zero => simp
  | succ n ih =>
    rw [Function.iterate_succ_apply, ih (tick d s) (by rw [tick_saw_on]; exact h),
      tick_cells_off d s h, List.map_map, Function.iterate_succ]

/-! ## Claim C8: toggling excitation off -/

/-- C8: `toggle_saw` itself never touches any cell, a tick never changes the
two toggle flags, and while `saw_on` is off every further tick applies
exactly the rotation/retention phase `phaseB` — the same per-cell dynamics
as when the SAW is on — to every cell, with no trigger anywhere: in-flight
`Holding`/`Relaxing` cells just continue, and are never reset or
discarded. -/
theorem C8_toggle_off_no_trigger :
    (∀ s, (toggle_saw s).cells = s.cells) ∧
    (∀ d s, (tick d s).saw_on = s.saw_on ∧ (tick d s).tribo_on = s.tribo_on) ∧
    (∀ d (n : ℕ) s, s.saw_on = false →
      ((tick d)^[n] s).cells = s.cells.map ((phaseB d)^[n])) := by
  refine ⟨fun s => ?_, fun d s => ⟨tick_saw_on d s, tick_tribo_on d s⟩,
    fun d n s h => iterate_tick_cells_off d n s h⟩
  unfold toggle_saw
  split <;> rfl

/-- C8 witness: one SAW-off tick on a concrete one-cell idle state is the
pure rotation/retention phase. -/
theorem C8_toggle_off_no_trigger_witness :
    ((tick dt)^[1] idleStateExample).cells =
      idleStateExample.cells.map ((phaseB dt)^[1]) :=
  C8_toggle_off_no_trigger.2.2 dt 1 idleStateExample rfl

/-! ## Claim C10: toggling excitation off and back on -/

/-- C10: toggling the SAW off and back on keeps the stored scalar
`saw_visual_y_pos`; the toggle-on reset touches only the band box position
`saw_visual.pos.z`, and the next tick overwrites that box position with
the advanced scalar before any overlap test, so the tick after the double
toggle produces exactly the same cells and the same scalar as if the
toggles had not happened — the pass never restarts from the film start. -/
theorem C10_toggle_off_on_resumes (d : ℝ) (s : SimState) (h : s.saw_on = true) :
    (toggle_saw (toggle_saw s)).saw_visual_y_pos = s.saw_visual_y_pos ∧
    (toggle_saw (toggle_saw s)).saw_on = true ∧
    (tick d (toggle_saw (toggle_saw s))).saw_visual_pos_z =
      s.saw_visual_y_pos + saw_speed * d ∧
    (tick d (toggle_saw (toggle_saw s))).saw_visual_y_pos =
      (tick d s).saw_visual_y_pos ∧
    (tick d (toggle_saw (toggle_saw s))).cells = (tick d s).cells := by
  cases s with
  | mk sawon tribo y z cl =>
    simp only at h
    subst h
    simp [toggle_saw, tick]

/-- C10 witness: the double toggle and next tick on a concrete running
state. -/
theorem C10_toggle_off_on_resumes_witness :
    (tick dt (toggle_saw (toggle_saw runningStateExample))).saw_visual_pos_z =
      runningStateExample.saw_visual_y_pos + saw_speed * dt ∧
    (tick dt (toggle_saw (toggle_saw runningStateExample))).cells =
      (tick dt runningStateExample).cells :=
  ⟨(C10_toggle_off_on_resumes dt runningStateExample rfl).2.2.1,
    (C10_toggle_off_on_resumes dt runningStateExample rfl).2.2.2.2⟩

/-! ## Claim C5: no re-trigger before relaxation completes -/

theorem cellTick_is_flipped_of_flipped (ov tr : Bool) (d : ℝ) (c : Cell)
    (hf : c.is_flipped = true) (hnr : ¬relaxCompletes c) :
    (cellTick ov tr d c).is_flipped = true := by
  unfold cellTick
  rw [if_neg fun hcon => by simp [hf] at hcon]
  show (stepB2 d (stepB1 c)).is_flipped = true
  have hxf : (stepB1 c).is_flipped = true := by rw [stepB1_is_flipped]; exact hf
  by_cases hr : (stepB1 c).retention_timer > 0
  · by_cases hrd : (stepB1 c).retention_timer - d ≤ 0
    · rw [stepB2_retention_runout d _ hxf hr hrd]; exact hxf
    · rw [stepB2_retention_pos d _ hxf hr hrd]; exact hxf
  · have hr' : (stepB1 c).retention_timer ≤ 0 := not_lt.mp hr
    by_cases hfar :
        |(stepB1 c).current_angle_rad - (stepB1 c).original_angle_rad| > radians 0.5
    · rw [stepB2_relax_far d _ hxf hr' hfar]; exact hxf
    · exact absurd
        ⟨hf, by rw [← stepB1_retention]; exact hr',
          by rw [← stepB1_original]; exact not_lt.mp hfar⟩ hnr

/-- C5: a flipped cell — one that has taken the `AtRest → Holding`
transition — can never take that transition again, no matter how the
wavefront overlaps it on later ticks, until a tick on which the
`Relaxing → AtRest` transition fires: along any input sequence with no
`Relaxing → AtRest` completion, no trigger of this cell ever fires and the
cell stays flipped. -/
theorem C5_no_retrigger (L : List (Bool × Bool × ℝ)) (c : Cell)
    (hf : c.is_flipped = true) (hnr : NoRelax c L) :
    NoTrig c L ∧ (cellSeq c L).is_flipped = true := by
  induction L generalizing c with
  | nil => exact ⟨trivial, hf⟩
  | cons hd tl ih =>
    obtain ⟨ov, tr, d⟩ := hd
    simp only [NoRelax] at hnr
    obtain ⟨hnr1, hnr2⟩ := hnr
    have hne : (cellTick ov tr d c).is_flipped = true :=
      cellTick_is_flipped_of_flipped ov tr d c hf hnr1
    obtain ⟨iht, ihf⟩ := ih (cellTick ov tr d c) hne hnr2
    refine ⟨?_, ?_⟩
    · simp only [NoTrig]
      exact ⟨fun ht => by simp [trigFires, hf] at ht, iht⟩
    · simp only [cellSeq]
      exact ihf

/-- C5 witness: a concrete flipped cell with 5 s of retention left, run
through one tick in which the wavefront overlaps it again: no trigger
fires and it stays flipped. -/
theorem C5_no_retrigger_witness :
    NoTrig holdingCellExample [(true, false, dt)] ∧
      (cellSeq holdingCellExample [(true, false, dt)]).is_flipped = true :=
  C5_no_retrigger [(true, false, dt)] holdingCellExample rfl
    (by
      simp only [NoRelax]
      refine ⟨fun hc => ?_, trivial⟩
      have h5 : (0 : ℝ) < 5 := by norm_num
      have := hc.2.1
      simp only [holdingCellExample] at this
      linarith)

/-! ## Claim C9: the digital-twin aggregate metrics -/

theorem rotAccum_of_no_flip (cells : List Cell)
    (h : ∀ c ∈ cells, c.is_flipped = false) : rotAccum cells = (0, 0) := by
  induction cells with
  | nil => rfl
  | cons c rest ih =>
    have hc := h c (List.mem_cons_self c rest)
    simp only [rotAccum]
    rw [ih fun x hx => h x (List.mem_cons_of_mem c hx),
      if_neg fun hcon => by simp [hc] at hcon]

theorem avg_rotation_perc_of_no_flip (cells : List Cell)
    (h : ∀ c ∈ cells, c.is_flipped = false) : avg_rotation_perc cells = 0 := by
  unfold avg_rotation_perc
  rw [rotAccum_of_no_flip cells h]
  norm_num

/-- C9: the aggregate metrics return a zero average-completion percentage
and the baseline field delta when no cell is displaced, and on every grid
state the field-delta estimate equals the baseline-to-ceiling linear
interpolation in the average-completion percentage, clamped between the
fixed baseline and the ceiling selected by the current enhancement flag. -/
theorem C9_metrics (tribo : Bool) (cells : List Cell) :
    ((∀ c ∈ cells, c.is_flipped = false) →
      avg_rotation_perc cells = 0 ∧ simulated_delta_B_nT tribo cells = base_nT) ∧
    base_nT ≤ simulated_delta_B_nT tribo cells ∧
    simulated_delta_B_nT tribo cells ≤ (if tribo then max_nT_tribo else max_nT_strain) ∧
    simulated_delta_B_nT tribo cells =
      max base_nT
        (min (base_nT + ((if tribo then max_nT_tribo else max_nT_strain) - base_nT) *
          (avg_rotation_perc cells / 100)) (if tribo then max_nT_tribo else max_nT_strain)) := by
  have hbc : base_nT ≤ (if tribo then max_nT_tribo else max_nT_strain) := by
    cases tribo <;> norm_num [base_nT, max_nT_tribo, max_nT_strain]
  refine ⟨fun h => ⟨avg_rotation_perc_of_no_flip cells h, ?_⟩, le_max_left _ _,
    max_le hbc (min_le_right _ _), rfl⟩
  unfold simulated_delta_B_nT
  rw [avg_rotation_perc_of_no_flip cells h]
  show base_nT ⊔ (base_nT + ((if tribo = true then max_nT_tribo else max_nT_strain) -
      base_nT) * ((0 : ℝ) / 100)) ⊓ (if tribo = true then max_nT_tribo else max_nT_strain) =
    base_nT
  rw [show ((0 : ℝ) / 100) = 0 by norm_num, mul_zero, add_zero, min_eq_left hbc, max_self]

/-- C9 witness: the empty grid has no displaced cell; the metrics evaluate
to the zero percentage and the baseline delta, which is within bounds. -/
theorem C9_metrics_witness :
    (avg_rotation_perc [] = 0 ∧ simulated_delta_B_nT false [] = base_nT) ∧
    base_nT ≤ simulated_delta_B_nT false [] :=
  ⟨(C9_metrics false []).1 (by simp), (C9_metrics false []).2.1⟩

/-! ## Claim C7: every produced angle stays in the normalized interval -/

theorem triggerUpdate_angles (tribo : Bool) (c : Cell) (h : anglesNormalized c) :
    anglesNormalized (triggerUpdate tribo c) :=
  ⟨h.1, h.2.1, normAngle_mem_Ioc _⟩

theorem trigStep_angles (tribo : Bool) (visZ : ℝ) (c : Cell)
    (h : anglesNormalized c) : anglesNormalized (trigStep tribo visZ c) := by
  unfold trigStep
  split
  · exact triggerUpdate_angles tribo c h
  · exact h

theorem stepB1_angles (c : Cell) (h : anglesNormalized c) :
    anglesNormalized (stepB1 c) := by
  unfold stepB1
  split
  · exact ⟨h.1, normAngle_mem_Ioc _, h.2.2⟩
  · exact h

theorem stepB2_angles (d : ℝ) (c : Cell) (h : anglesNormalized c) :
    anglesNormalized (stepB2 d c) := by
  by_cases hf : c.is_flipped = true
  · by_cases hr : c.retention_timer > 0
    · by_cases hrd : c.retention_timer - d ≤ 0
      · rw [stepB2_retention_runout d c hf hr hrd]; exact ⟨h.1, h.2.1, h.1⟩
      · rw [stepB2_retention_pos d c hf hr hrd]; exact h
    · have hr' := not_lt.mp hr
      by_cases hfar : |c.current_angle_rad - c.original_angle_rad| > radians 0.5
      · rw [stepB2_relax_far d c hf hr' hfar]
        exact ⟨h.1, normAngle_mem_Ioc _, h.2.2⟩
      · rw [stepB2_relax_snap d c hf hr' hfar]; exact ⟨h.1, h.1, h.2.2⟩
  · have hff : c.is_flipped = false := by
      cases hb : c.is_flipped
      · rfl
      · exact absurd hb hf
    rw [stepB2_not_flipped d c hff]; exact h

theorem phaseB_angles (d : ℝ) (c : Cell) (h : anglesNormalized c) :
    anglesNormalized (phaseB d c) :=
  stepB2_angles d _ (stepB1_angles c h)

theorem toggle_saw_cells (s : SimState) : (toggle_saw s).cells = s.cells := by
  unfold toggle_saw; split <;> rfl

theorem tick_cells_on (d : ℝ) (s : SimState) (h : s.saw_on = true) :
    (tick d s).cells =
      (s.cells.map (trigStep s.tribo_on (s.saw_visual_y_pos + saw_speed * d))).map
        (phaseB d) := by
  simp [tick, h]

theorem initCell_angles (i j : ℕ) (p : ℝ) (hp : |p| ≤ 5) :
    anglesNormalized (initCell i j p) := by
  obtain ⟨hl, hr⟩ := abs_le.mp hp
  have hpi := Real.pi_pos
  have hmem : radians (INITIAL_MAGNETIZATION_ANGLE_DEG + p) ∈ Set.Ioc (-π) π := by
    unfold radians INITIAL_MAGNETIZATION_ANGLE_DEG
    have h1 : (0 + p) * π ≥ -5 * π := by nlinarith
    have h2 : (0 + p) * π ≤ 5 * π := by nlinarith
    constructor
    · show -π < (0 + p) * π / 180
      linarith
    · show (0 + p) * π / 180 ≤ π
      linarith
  exact ⟨hmem, hmem, hmem⟩

theorem reach_angles {s : SimState} (hs : Reach s) :
    ∀ c ∈ s.cells, anglesNormalized c := by
  induction hs with
  | init ps hps =>
    intro c hc
    simp only [initState, initCells, List.mem_flatMap, List.mem_map,
      List.mem_range] at hc
    obtain ⟨i, hi, j, hj, rfl⟩ := hc
    exact initCell_angles i j (ps i j) (hps i j)
  | @tick s' hs' ih =>
    intro c hc
    cases hss : s'.saw_on with
    | false =>
      rw [tick_cells_off dt s' hss] at hc
      obtain ⟨x, hx, rfl⟩ := List.mem_map.mp hc
      exact phaseB_angles dt x (ih x hx)
    | true =>
      rw [tick_cells_on dt s' hss] at hc
      obtain ⟨y, hy, rfl⟩ := List.mem_map.mp hc
      obtain ⟨x, hx, rfl⟩ := List.mem_map.mp hy
      exact phaseB_angles dt _ (trigStep_angles _ _ x (ih x hx))
  | @tsaw s' hs' ih =>
    rw [toggle_saw_cells s']
    exact ih
  | @ttribo s' hs' ih =>
    exact ih

/-- C7: in every reachable simulation state, every cell's current angle
and target angle lie in the half-open interval `(-π, π]`. -/
theorem C7_angles_in_Ioc {s : SimState} (hs : Reach s) :
    ∀ c ∈ s.cells,
      c.current_angle_rad ∈ Set.Ioc (-π) π ∧
      c.target_angle_rad ∈ Set.Ioc (-π) π :=
  fun c hc => ⟨(reach_angles hs c hc).2.1, (reach_angles hs c hc).2.2⟩

theorem initCell_mem_initState (ps : ℕ → ℕ → ℝ) :
    initCell 0 0 (ps 0 0) ∈ (initState ps).cells := by
  simp only [initState, initCells, List.mem_flatMap, List.mem_map, List.mem_range]
  exact ⟨0, by norm_num [NUM_DOMAINS_X], 0, by norm_num [NUM_DOMAINS_Y], rfl⟩

/-- C7 witness: the first cell of a concrete unperturbed initial grid has
normalized current and target angles. -/
theorem C7_angles_in_Ioc_witness :
    (initCell 0 0 0).current_angle_rad ∈ Set.Ioc (-π) π ∧
    (initCell 0 0 0).target_angle_rad ∈ Set.Ioc (-π) π :=
  C7_angles_in_Ioc (Reach.init (fun _ _ => 0) fun i j => by norm_num)
    (initCell 0 0 0) (initCell_mem_initState fun _ _ => 0)

/-! ## Claim C2: a tick with `dt = 0` -/

theorem toggle_saw_y (s : SimState) :
    (toggle_saw s).saw_visual_y_pos = s.saw_visual_y_pos := by
  unfold toggle_saw; split <;> rfl

/-- In every reachable state the SAW scalar is at or below the wrap
threshold. -/
theorem reach_saw_le {s : SimState} (hs : Reach s) :
    s.saw_visual_y_pos ≤ FILM_LENGTH + saw_visual_thickness / 2 := by
  induction hs with
  | init ps hps =>
    show -saw_visual_thickness / 2 ≤ _
    unfold saw_visual_thickness DOMAIN_SIZE FILM_LENGTH
    norm_num
  | @tick s' hs' ih =>
    cases hss : s'.saw_on with
    | false =>
      have hy : (tick dt s').saw_visual_y_pos = s'.saw_visual_y_pos := by
        simp [tick, hss]
      rw [hy]; exact ih
    | true =>
      have hy : (tick dt s').saw_visual_y_pos =
          if s'.saw_visual_y_pos + saw_speed * dt >
              FILM_LENGTH + saw_visual_thickness / 2 then
            -saw_visual_thickness / 2
          else s'.saw_visual_y_pos + saw_speed * dt := by
        simp [tick, hss]
      rw [hy]
      split
      · unfold saw_visual_thickness DOMAIN_SIZE FILM_LENGTH; norm_num
      · rename_i hw; exact not_lt.mp hw
  | @tsaw s' hs' ih => rw [toggle_saw_y]; exact ih
  | @ttribo s' hs' ih => exact ih

theorem stepB2_retention_dt_zero (c : Cell) :
    (stepB2 0 c).retention_timer = c.retention_timer := by
  by_cases hf : c.is_flipped = true
  · by_cases hr : c.retention_timer > 0
    · have hrd : ¬c.retention_timer - 0 ≤ 0 := by
        rw [sub_zero]; exact not_le.mpr hr
      rw [stepB2_retention_pos 0 c hf hr hrd]
      show c.retention_timer - 0 = c.retention_timer
      rw [sub_zero]
    · have hr' := not_lt.mp hr
      by_cases hfar : |c.current_angle_rad - c.original_angle_rad| > radians 0.5
      · rw [stepB2_relax_far 0 c hf hr' hfar]
      · rw [stepB2_relax_snap 0 c hf hr' hfar]
  · have hff : c.is_flipped = false := by
      cases hb : c.is_flipped
      · rfl
      · exact absurd hb hf
    rw [stepB2_not_flipped 0 c hff]

theorem phaseB_retention_dt_zero (c : Cell) :
    (phaseB 0 c).retention_timer = c.retention_timer := by
  unfold phaseB; rw [stepB2_retention_dt_zero, stepB1_retention]

theorem phaseB_not_flipped (d : ℝ) (c : Cell) (hff : c.is_flipped = false) :
    phaseB d c = c := by
  unfold phaseB; rw [stepB1_not_flipped c hff, stepB2_not_flipped d c hff]

theorem phaseB_settled (c : Cell) (hf : c.is_flipped = true)
    (hr : c.retention_timer > 0)
    (hnear : ¬|c.current_angle_rad - c.target_angle_rad| > radians 0.5) :
    phaseB 0 c = c := by
  unfold phaseB
  rw [stepB1_near c fun hcon => hnear hcon.2]
  have hrd : ¬c.retention_timer - 0 ≤ 0 := by rw [sub_zero]; exact not_le.mpr hr
  rw [stepB2_retention_pos 0 c hf hr hrd]
  cases c
  simp

/-- C2 (amended): a tick with `dt = 0` leaves the wavefront scalar
unchanged and freezes every retention countdown, and it leaves a cell
wholly unchanged when the cell is at rest (and the rotation/retention
phase is its identity) or is holding with time left and already within
0.5° of its target.  It does *not* leave every cell unchanged: the
fractional rotation/relaxation steps and the trigger do not depend on
`dt` at all, so mid-rotation cells still move (see the counterexample). -/
theorem C2_tick_dt_zero {s : SimState} (hs : Reach s) :
    (tick 0 s).saw_visual_y_pos = s.saw_visual_y_pos ∧
    (∀ c, (phaseB 0 c).retention_timer = c.retention_timer) ∧
    (∀ c, c.is_flipped = false → phaseB 0 c = c) ∧
    (∀ c, c.is_flipped = true → c.retention_timer > 0 →
      ¬|c.current_angle_rad - c.target_angle_rad| > radians 0.5 →
      phaseB 0 c = c) := by
  refine ⟨?_, phaseB_retention_dt_zero, fun c h => phaseB_not_flipped 0 c h,
    fun c hf hr hn => phaseB_settled c hf hr hn⟩
  cases hss : s.saw_on with
  | false => simp [tick, hss]
  | true =>
    have hle := reach_saw_le hs
    have hy : (tick 0 s).saw_visual_y_pos =
        if s.saw_visual_y_pos + saw_speed * 0 >
            FILM_LENGTH + saw_visual_thickness / 2 then
          -saw_visual_thickness / 2
        else s.saw_visual_y_pos + saw_speed * 0 := by
      simp [tick, hss]
    rw [hy, mul_zero, add_zero, if_neg (not_lt.mpr hle)]

/-- C2 witness: on a concrete reachable state (the unperturbed initial
grid), a `dt = 0` tick keeps the wavefront scalar, and the
rotation/retention phase with `dt = 0` keeps a concrete holding cell's
retention timer. -/
theorem C2_tick_dt_zero_witness :
    (tick 0 (initState fun _ _ => 0)).saw_visual_y_pos =
      (initState fun _ _ => 0).saw_visual_y_pos ∧
    (phaseB 0 holdingCellExample).retention_timer =
      holdingCellExample.retention_timer :=
  ⟨(C2_tick_dt_zero (Reach.init (fun _ _ => 0) fun i j => by norm_num)).1,
    (C2_tick_dt_zero (Reach.init (fun _ _ => 0) fun i j => by norm_num)).2.1
      holdingCellExample⟩

theorem initCells_head? (ps : ℕ → ℕ → ℝ) :
    (initCells ps).head? = some (initCell 0 0 (ps 0 0)) := by
  have h8 : List.range NUM_DOMAINS_X = 0 :: List.map Nat.succ (List.range 7) :=
    List.range_succ_eq_map 7
  have h40 : List.range NUM_DOMAINS_Y = 0 :: List.map Nat.succ (List.range 39) :=
    List.range_succ_eq_map 39
  unfold initCells
  rw [h8, List.flatMap_cons, h40, List.map_cons, List.cons_append, List.head?_cons]

theorem trigStep_flipped (tribo : Bool) (visZ : ℝ) (c : Cell)
    (hf : c.is_flipped = true) : trigStep tribo visZ c = c := by
  unfold trigStep
  rw [if_neg fun h => by simp [hf] at h]

/-- C2 counterexample: start from the unperturbed initial grid, switch the
SAW on and run one ordinary tick — the band now covers the first cell, so
that cell is flipped and mid-rotation.  This state is reachable, yet a
further tick with `dt = 0` still changes the first cell's current angle
(the 20% step fires regardless of `dt`), refuting the claim that a
`dt = 0` tick never changes any cell's state. -/
theorem C2_counterexample :
    Reach (tick dt (toggle_saw (initState fun _ _ => 0))) ∧
    (tick 0 (tick dt (toggle_saw (initState fun _ _ => 0)))).cells.head?.map
        Cell.current_angle_rad ≠
      (tick dt (toggle_saw (initState fun _ _ => 0))).cells.head?.map
        Cell.current_angle_rad := by
  have hpi := Real.pi_pos
  refine ⟨Reach.tick (Reach.tsaw (Reach.init _ fun i j => by norm_num)), ?_⟩
  have hS1 : toggle_saw (initState fun _ _ => 0) =
      SimState.mk true false (-12.5e-9) (-12.5e-9) (initCells fun _ _ => 0) := by
    simp [toggle_saw, initState, SimState.mk.injEq, saw_visual_thickness, DOMAIN_SIZE]
    norm_num
  have hc0 : initCell 0 0 ((fun _ _ => (0 : ℝ)) 0 0) =
      Cell.mk 12.5e-9 0 0 0 0 false 0 := by
    simp [initCell, Cell.mk.injEq, radians, INITIAL_MAGNETIZATION_ANGLE_DEG, DOMAIN_SIZE]
    norm_num
  have hy1 : (-12.5e-9 : ℝ) + saw_speed * dt = -10.5e-9 := by
    unfold saw_speed dt FILM_LENGTH; norm_num
  have hhead1 : (tick dt (toggle_saw (initState fun _ _ => 0))).cells.head? =
      some (phaseB dt (trigStep false (-10.5e-9) (Cell.mk 12.5e-9 0 0 0 0 false 0))) := by
    rw [hS1, tick_cells_on dt _ rfl]
    dsimp only
    rw [hy1, List.head?_map, List.head?_map, initCells_head?, hc0,
      Option.map_some', Option.map_some']
  have hov : sawOverDomain (-10.5e-9) (12.5e-9 : ℝ) := by
    unfold sawOverDomain saw_visual_thickness DOMAIN_SIZE
    constructor <;> norm_num
  have htgt : normAngle (-radians MAX_ROTATION_STRAIN_DEG) = -(π / 12) := by
    rw [radians_eq]
    unfold MAX_ROTATION_STRAIN_DEG
    rw [show -((15 : ℝ) * π / 180) = -(π / 12) by ring]
    exact normAngle_eq_self (by linarith) (by linarith)
  have htrig : trigStep false (-10.5e-9) (Cell.mk 12.5e-9 0 0 0 0 false 0) =
      Cell.mk 12.5e-9 0 (-(π / 12)) 2 0 true (-(π / 12)) := by
    unfold trigStep
    rw [if_pos ⟨hov, rfl⟩]
    unfold triggerUpdate
    dsimp only
    rw [Real.cos_zero]
    norm_num [RETENTION_TIME_STRAIN_S, htgt]
  have hB1 : stepB1 (Cell.mk 12.5e-9 0 (-(π / 12)) 2 0 true (-(π / 12))) =
      Cell.mk 12.5e-9 (-(π / 60)) (-(π / 12)) 2 0 true (-(π / 12)) := by
    have hfar : |(0 : ℝ) - -(π / 12)| > radians 0.5 := by
      rw [sub_neg_eq_add, zero_add, abs_of_nonneg (by positivity), radians_eq]
      linarith
    unfold stepB1
    rw [if_pos ⟨rfl, hfar⟩]
    dsimp only
    rw [show (-(π / 12) : ℝ) - 0 = -(π / 12) by ring,
      normAngle_eq_self (θ := -(π / 12)) (by linarith) (by linarith),
      show (0 : ℝ) + -(π / 12) * 0.2 = -(π / 60) by ring,
      normAngle_eq_self (θ := -(π / 60)) (by linarith) (by linarith)]
  have hphase1 : phaseB dt (Cell.mk 12.5e-9 0 (-(π / 12)) 2 0 true (-(π / 12))) =
      Cell.mk 12.5e-9 (-(π / 60)) (-(π / 12)) 1.99 0 true (-(π / 12)) := by
    unfold phaseB
    rw [hB1, stepB2_retention_pos dt _ rfl (by norm_num)
      (by unfold dt; norm_num)]
    dsimp only
    rw [show (2 : ℝ) - dt = 1.99 by unfold dt; norm_num]
  have hcell1 : (tick dt (toggle_saw (initState fun _ _ => 0))).cells.head? =
      some (Cell.mk 12.5e-9 (-(π / 60)) (-(π / 12)) 1.99 0 true (-(π / 12))) := by
    rw [hhead1, htrig, hphase1]
  have hS2on : (tick dt (toggle_saw (initState fun _ _ => 0))).saw_on = true := by
    rw [tick_saw_on, hS1]
  have hS2tr : (tick dt (toggle_saw (initState fun _ _ => 0))).tribo_on = false := by
    rw [tick_tribo_on, hS1]
  have hhead2 : (tick 0 (tick dt (toggle_saw (initState fun _ _ => 0)))).cells.head? =
      some (phaseB 0 (trigStep false
        ((tick dt (toggle_saw (initState fun _ _ => 0))).saw_visual_y_pos +
          saw_speed * 0)
        (Cell.mk 12.5e-9 (-(π / 60)) (-(π / 12)) 1.99 0 true (-(π / 12))))) := by
    rw [tick_cells_on 0 _ hS2on, hS2tr, List.head?_map, List.head?_map, hcell1,
      Option.map_some', Option.map_some']
  have hphase2 : (phaseB 0
      (Cell.mk 12.5e-9 (-(π / 60)) (-(π / 12)) 1.99 0 true
        (-(π / 12)))).current_angle_rad = -(3 * π / 100) := by
    unfold phaseB
    have hfar2 : |(-(π / 60) : ℝ) - -(π / 12)| > radians 0.5 := by
      rw [show (-(π / 60) : ℝ) - -(π / 12) = π / 15 by ring,
        abs_of_nonneg (by positivity), radians_eq]
      linarith
    have hB1' : stepB1 (Cell.mk 12.5e-9 (-(π / 60)) (-(π / 12)) 1.99 0 true
        (-(π / 12))) =
        Cell.mk 12.5e-9 (-(3 * π / 100)) (-(π / 12)) 1.99 0 true (-(π / 12)) := by
      unfold stepB1
      rw [if_pos ⟨rfl, hfar2⟩]
      dsimp only
      rw [show (-(π / 12) : ℝ) - -(π / 60) = -(π / 15) by ring,
        normAngle_eq_self (θ := -(π / 15)) (by linarith) (by linarith),
        show (-(π / 60) : ℝ) + -(π / 15) * 0.2 = -(3 * π / 100) by ring,
        normAngle_eq_self (θ := -(3 * π / 100)) (by linarith) (by linarith)]
    rw [hB1', stepB2_retention_pos 0 _ rfl (by norm_num) (by norm_num)]
  rw [hhead2, hcell1, trigStep_flipped _ _ _ rfl, Option.map_some', Option.map_some',
    hphase2]
  dsimp only
  intro h
  rw [Option.some.injEq] at h
  have : (-(3 * π / 100) : ℝ) = -(π / 60) := h
  linarith
